import Mathlib

/-!
Shallow embedding of the FileStem client synchronization layer:
the react-query hooks in `src/hooks/useQueries.ts` and the upload /
download / deletion handlers plus the progress animation effect of the
main component. Handlers become state-transition functions; the
asynchronous upload flow becomes an explicit event trace; the timer-driven
progress animation becomes a step function on an engine state.
-/

namespace FileStem

/-- `FileMetadata` records as listed by the remote actor:
`{id, name, size}` with `id`/`size` bigints (embedded as `Nat`). -/
structure FileMetadata where
  id : Nat
  name : String
  size : Nat
deriving DecidableEq, Repr

/-- A call issued through the Remote Client Binding (the actor). -/
inductive RemoteCall where
  | getFiles : RemoteCall
  | addFile (name : String) (size : Nat) : RemoteCall
  | getFileContent (id : Nat) : RemoteCall
deriving DecidableEq, Repr

/-- A `sonner` toast notification: `toast.success`/`toast.error` with a
message and an optional `description`. -/
inductive Toast where
  | success (message : String) (description : Option String) : Toast
  | error (message : String) (description : Option String) : Toast
deriving DecidableEq, Repr

/-- Two-digit zero padding of a decimal string. -/
def pad2 (n : Nat) : String :=
  if n < 10 then "0" ++ toString n else toString n

/-- `(size / 1024).toFixed(2)`: the KB value with two decimal digits,
rounding half up, computed on hundredth-of-a-KB scaled integers (the
embedding of the source's float formatting). -/
def kbToFixed2 (size : Nat) : String :=
  let c : Nat := (size * 100 * 2 + 1024) / 2048
  toString (c / 100) ++ "." ++ pad2 (c % 100)

/-- The description of the "Selected:" toast (source line 41):
`Size: ${(file.size / 1024).toFixed(2)} KB`. -/
def sizeDescription (size : Nat) : String :=
  "Size: " ++ kbToFixed2 size ++ " KB"

/-! ## `useGetFiles` (useQueries.ts lines 6-17) -/

/-- `queryFn` of `useGetFiles`: `if (!actor) return []; return
actor.getFiles()`. The actor, for listing purposes, is its `getFiles`
result. -/
def getFilesQueryFn (actor : Option (List FileMetadata)) : List FileMetadata :=
  match actor with
  | none => []
  | some files => files

/-- `enabled: !!actor && !isFetching` of the `useGetFiles` query. -/
def getFilesEnabled (actorAvailable : Bool) (isFetching : Bool) : Bool :=
  actorAvailable && !isFetching

/-! ## The upload session as an event trace

`handleFileSelect` (component lines 34-74) together with `useAddFile`
(useQueries.ts lines 20-34) produces, for one selected file, a sequence
of observable events: local state writes, toasts, console output, the
remote call, its settlement, the query-cache invalidation of the hook's
`onSuccess`, and the 500 ms `setTimeout` settle delay. -/

/-- How the remote `addFile` call settles once issued. -/
inductive RemoteOutcome where
  | accepted (record : FileMetadata) : RemoteOutcome
  | rejected (cause : String) : RemoteOutcome
deriving DecidableEq, Repr

/-- Observable events of one upload session. -/
inductive UploadEvent where
  | setIsUploading (b : Bool) : UploadEvent
  | setProgress (p : ℚ) : UploadEvent
  | toastEvent (t : Toast) : UploadEvent
  | consoleError (message : String) : UploadEvent
  | remoteAddFile (name : String) (size : Nat) : UploadEvent
  | remoteAccepted (record : FileMetadata) : UploadEvent
  | remoteRejected (cause : String) : UploadEvent
  | invalidateFilesQuery : UploadEvent
  | settleDelay (ms : Nat) : UploadEvent
deriving DecidableEq, Repr

/-- `mutationFn` of `useAddFile` (useQueries.ts lines 25-28): throws
`Actor not initialized` without issuing the remote call when the actor is
absent; otherwise issues `actor.addFile(name, size)` once and returns its
settlement. Result: the remote calls issued, and the settled value. -/
def mutationFnAddFile (actorAvailable : Bool) (outcome : RemoteOutcome)
    (name : String) (size : Nat) :
    List UploadEvent × Except String FileMetadata :=
  if actorAvailable then
    match outcome with
    | .accepted record => ([.remoteAddFile name size, .remoteAccepted record], .ok record)
    | .rejected cause => ([.remoteAddFile name size, .remoteRejected cause], .error cause)
  else
    ([], .error "Actor not initialized")

/-- The event trace of `handleFileSelect` for a selected file, given the
availability of the actor and how the remote call settles. Mirrors
component lines 36-70: set the uploading flag and zero progress, emit the
"Selected:" toast, run the mutation; on success the hook-level `onSuccess`
invalidates the `['files']` query, then the call-site `onSuccess` sets
progress 100, emits the success toast and schedules a 500 ms reset; on
error the call-site `onError` emits a fixed failure toast, logs the cause
to the console, and clears the transient state immediately. -/
def uploadSessionTrace (actorAvailable : Bool) (outcome : RemoteOutcome)
    (name : String) (size : Nat) : List UploadEvent :=
  let mf := mutationFnAddFile actorAvailable outcome name size
  [UploadEvent.setIsUploading true, UploadEvent.setProgress 0,
   UploadEvent.toastEvent (Toast.success ("Selected: " ++ name) (some (sizeDescription size)))]
  ++ mf.1
  ++ match mf.2 with
     | .ok _ =>
        [UploadEvent.invalidateFilesQuery,
         UploadEvent.setProgress 100,
         UploadEvent.toastEvent (Toast.success "File uploaded successfully!" none),
         UploadEvent.settleDelay 500,
         UploadEvent.setIsUploading false, UploadEvent.setProgress 0]
     | .error cause =>
        [UploadEvent.toastEvent (Toast.error "Failed to upload file" none),
         UploadEvent.consoleError cause,
         UploadEvent.setIsUploading false, UploadEvent.setProgress 0]

/-! ### Event predicates -/

def isInvalidate : UploadEvent → Bool
  | .invalidateFilesQuery => true
  | _ => false

def isSettleDelay : UploadEvent → Bool
  | .settleDelay _ => true
  | _ => false

def isRemoteAccepted : UploadEvent → Bool
  | .remoteAccepted _ => true
  | _ => false

def isSetProgress100 : UploadEvent → Bool
  | .setProgress p => decide (p = 100)
  | _ => false

def isClearUploading : UploadEvent → Bool
  | .setIsUploading b => !b
  | _ => false

/-- The upload-settled success notification. In the trace it is the only
success toast without a description (the "Selected:" toast always
carries a size description). -/
def isSuccessNotification : UploadEvent → Bool
  | .toastEvent (Toast.success _ none) => true
  | _ => false

def isErrorToast : UploadEvent → Bool
  | .toastEvent (Toast.error _ _) => true
  | _ => false

def isRemoteCallEvent : UploadEvent → Bool
  | .remoteAddFile _ _ => true
  | _ => false

/-- A toast carries a cause string the way this codebase carries causes
(the download handler puts `error.message` in the `description` field):
either the description is exactly the cause or the message is. -/
def toastCarries (cause : String) : Toast → Bool
  | .success m d => m == cause || d == some cause
  | .error m d => m == cause || d == some cause

/-- The toasts emitted along a trace. -/
def toastsOf (tr : List UploadEvent) : List Toast :=
  tr.filterMap fun e =>
    match e with
    | .toastEvent t => some t
    | _ => none

/-! ## Component state and the effect of events on it -/

/-- The component's local state plus the ambient query cache, the toast
stream, the console log and the log of remote calls issued. -/
structure AppState where
  copiedIndex : Option Nat
  fileToDelete : Option Nat
  uploadProgress : ℚ
  isUploading : Bool
  fileCache : List FileMetadata
  toasts : List Toast
  consoleLog : List String
  remoteLog : List RemoteCall
deriving DecidableEq, Repr

/-- Applying one upload event to the state. `invalidateFilesQuery`
replaces the cache wholesale with the remote listing (invalidate and
refetch); remote settlements themselves change no client state (their
callbacks are separate events). -/
def applyEvent (remoteFiles : List FileMetadata) (s : AppState) :
    UploadEvent → AppState
  | .setIsUploading b => { s with isUploading := b }
  | .setProgress p => { s with uploadProgress := p }
  | .toastEvent t => { s with toasts := s.toasts ++ [t] }
  | .consoleError m => { s with consoleLog := s.consoleLog ++ [m] }
  | .remoteAddFile n sz => { s with remoteLog := s.remoteLog ++ [RemoteCall.addFile n sz] }
  | .remoteAccepted _ => s
  | .remoteRejected _ => s
  | .invalidateFilesQuery => { s with fileCache := remoteFiles }
  | .settleDelay _ => s

/-- Folding a whole trace over the state. -/
def runTrace (remoteFiles : List FileMetadata) (s : AppState)
    (tr : List UploadEvent) : AppState :=
  tr.foldl (applyEvent remoteFiles) s

/-- The upload button's `disabled` attribute (component line 240):
`disabled={isUploading}`. -/
def uploadButtonDisabled (s : AppState) : Bool :=
  s.isUploading

/-! ## `useGetFileContent` and `handleDownload`

`useGetFileContent` (useQueries.ts lines 37-49) is a mutation whose
`mutationFn` throws `Actor not initialized` without a call when the actor
is absent, issues `actor.getFileContent(fileId)` once, throws
`File not found` when the result is absent, and otherwise yields
`{name: result[0], content: result[1]}`. The remote content store is
embedded as a function `Nat → Option (String × List Nat)`. -/

/-- `mutationFn` of `useGetFileContent`: the remote calls issued and the
settled value. -/
def getFileContentMutationFn (actorAvailable : Bool)
    (remote : Nat → Option (String × List Nat)) (fileId : Nat) :
    List RemoteCall × Except String (String × List Nat) :=
  if actorAvailable then
    match remote fileId with
    | none => ([RemoteCall.getFileContent fileId], .error "File not found")
    | some (n, content) => ([RemoteCall.getFileContent fileId], .ok (n, content))
  else
    ([], .error "Actor not initialized")

/-- Observable result of `handleDownload` (component lines 111-142):
which remote calls were issued, the materialized save action (the
`link.download` name paired with the blob bytes, `none` when no download
was triggered), and the toasts emitted. -/
structure DownloadResult where
  calls : List RemoteCall
  savedFile : Option (String × List Nat)
  toasts : List Toast
deriving DecidableEq, Repr

/-- `handleDownload(fileId, fileName)`: awaits the content mutation; on
success materializes the bytes under the remote-reported `result.name`
and emits the success toast; on any thrown error emits
`Failed to download file` with `error.message` as description and
triggers no save. The `fileName` argument (the cache's name) is received
but unused in the body. -/
def handleDownload (actorAvailable : Bool)
    (remote : Nat → Option (String × List Nat))
    (fileId : Nat) (fileName : String) : DownloadResult :=
  let mf := getFileContentMutationFn actorAvailable remote fileId
  match mf.2 with
  | .ok (n, content) =>
      { calls := mf.1
        savedFile := some (n, content)
        toasts := [Toast.success "Download started!" (some ("Downloading " ++ n))] }
  | .error e =>
      { calls := mf.1
        savedFile := none
        toasts := [Toast.error "Failed to download file" (some e)] }

/-! ## Deletion intent (component lines 144-158) -/

/-- `handleDeleteClick(fileId)`: `setFileToDelete(fileId)`. -/
def handleDeleteClick (s : AppState) (fileId : Nat) : AppState :=
  { s with fileToDelete := some fileId }

/-- `handleConfirmDelete`: when a deletion is pending, emits the fixed
`Delete functionality not yet implemented in backend` error toast and
clears the pending id; otherwise does nothing. No remote call is issued
and the cache is untouched. -/
def handleConfirmDelete (s : AppState) : AppState :=
  match s.fileToDelete with
  | some _ =>
      { s with
        toasts := s.toasts ++
          [Toast.error "Delete functionality not yet implemented in backend" none]
        fileToDelete := none }
  | none => s

/-- `handleCancelDelete`: `setFileToDelete(null)`. -/
def handleCancelDelete (s : AppState) : AppState :=
  { s with fileToDelete := none }

/-! ## The progress animation effect (component lines 76-97)

The `useEffect` runs when its dependencies `[isUploading,
addFileMutation.isPending]` change: its cleanup clears any interval the
previous run installed, and when `isUploading && isPending` holds (and the
component is mounted) it installs a fresh interval firing every 30 ms,
whose closure starts from `currentProgress = 0`, adds `increment` per
tick, and clamps at 95, clearing itself on reaching the clamp. -/

def duration : ℚ := 1500

def intervalTime : ℚ := 30

def steps : ℚ := duration / intervalTime

def increment : ℚ := 95 / steps

/-- The engine state: the effect's dependency flags, mount status,
whether an interval is installed, the closure's `currentProgress`, and
the rendered `uploadProgress`. -/
structure EngineState where
  isUploading : Bool
  isPending : Bool
  mounted : Bool
  timerActive : Bool
  currentProgress : ℚ
  uploadProgress : ℚ
deriving DecidableEq, Repr

/-- One interval tick: only an installed interval fires; it adds
`increment` to the closure's accumulator, and either clamps the rendered
progress at 95 and clears itself, or renders the accumulated value. -/
def tick (s : EngineState) : EngineState :=
  if s.timerActive then
    let c := s.currentProgress + increment
    if c ≥ 95 then
      { s with uploadProgress := 95, timerActive := false }
    else
      { s with currentProgress := c, uploadProgress := c }
  else
    s

/-- Re-running the effect after a dependency change: the cleanup of the
previous run (`clearInterval`) always executes first; a new interval with
a fresh accumulator is installed only when the component is mounted and
`isUploading && addFileMutation.isPending` holds. -/
def runEffect (s : EngineState) : EngineState :=
  let s := { s with timerActive := false }
  if s.mounted && s.isUploading && s.isPending then
    { s with timerActive := true, currentProgress := 0 }
  else
    s

/-- The upload session's flags change (success, failure, or any other
settlement path flips `isPending`; the reset flips `isUploading`), which
re-runs the effect. -/
def setSessionFlags (s : EngineState) (uploading pending : Bool) : EngineState :=
  runEffect { s with isUploading := uploading, isPending := pending }

/-- Component teardown: React runs the pending cleanup (`clearInterval`)
and the component is gone. -/
def unmountComponent (s : EngineState) : EngineState :=
  { s with mounted := false, timerActive := false }

/-- The engine state at the start of an upload session: the handler has
set `isUploading`/progress 0, the mutation is pending, and the effect has
just (re)installed its interval. -/
def startEngineState : EngineState :=
  runEffect
    { isUploading := true, isPending := true, mounted := true,
      timerActive := false, currentProgress := 0, uploadProgress := 0 }

/-! ## Helper lemmas -/

/-- A tick with no installed interval changes nothing. -/
lemma tick_of_not_active (s : EngineState) (h : s.timerActive = false) :
    tick s = s := by
  simp [tick, h]

/-- Ticks preserve the 95-ceiling on the rendered progress. -/
lemma tick_uploadProgress_le (s : EngineState) (h : s.uploadProgress ≤ 95) :
    (tick s).uploadProgress ≤ 95 := by
  unfold tick
  by_cases ht : s.timerActive
  · by_cases hc : s.currentProgress + increment ≥ 95
    · simp [ht, hc]
    · simp only [ht, if_true, hc, if_false]
      exact le_of_not_le hc
  · simp [ht, h]

/-- Iterated ticks preserve the 95-ceiling on the rendered progress. -/
lemma iterate_tick_uploadProgress_le (n : Nat) (s : EngineState)
    (h : s.uploadProgress ≤ 95) : (tick^[n] s).uploadProgress ≤ 95 := by
  induction n generalizing s with
  | zero => simpa using h
  | succ n ih =>
      rw [Function.iterate_succ_apply]
      exact ih _ (tick_uploadProgress_le s h)

/-- Once the interval is released, iterated ticks are the identity. -/
lemma iterate_tick_of_not_active (n : Nat) (s : EngineState)
    (h : s.timerActive = false) : tick^[n] s = s :=
  Function.iterate_fixed (tick_of_not_active s h) n

/-! ## Claims -/

/-- Claim C10 (confirmed): with the actor unavailable the file-listing
query function returns the empty list, which is exactly what it returns
for an available actor over an empty remote store, and the query is
disabled (`enabled` is `false`) whenever the actor is absent. -/
theorem C10_unavailable_binding_lists_empty :
    getFilesQueryFn none = ([] : List FileMetadata) ∧
    getFilesQueryFn none = getFilesQueryFn (some []) ∧
    (∀ isFetching : Bool, getFilesEnabled false isFetching = false) :=
  ⟨rfl, rfl, fun _ => rfl⟩

/-- Claim C4 (confirmed): with any deletion pending (the id need not be
in the cache), confirming emits the fixed unsupported-operation failure
toast, issues no remote call, leaves the File Cache unchanged, and
returns the pending-deletion state to idle; cancelling likewise returns
to idle without touching cache or remote log. -/
theorem C4_confirm_delete_is_pure_unsupported (s : AppState) (id : Nat)
    (h : s.fileToDelete = some id) :
    (handleConfirmDelete s).fileCache = s.fileCache ∧
    (handleConfirmDelete s).remoteLog = s.remoteLog ∧
    (handleConfirmDelete s).toasts = s.toasts ++
      [Toast.error "Delete functionality not yet implemented in backend" none] ∧
    (handleConfirmDelete s).fileToDelete = none ∧
    (handleCancelDelete s).fileCache = s.fileCache ∧
    (handleCancelDelete s).remoteLog = s.remoteLog ∧
    (handleCancelDelete s).fileToDelete = none := by
  simp [handleConfirmDelete, handleCancelDelete, h]

/-- A state with a confirmation prompt open for id 42, an id that is not
in the cache. -/
def pendingDeleteState : AppState :=
  { copiedIndex := none, fileToDelete := some 42, uploadProgress := 0,
    isUploading := false, fileCache := [⟨7, "report.pdf", 204800⟩],
    toasts := [], consoleLog := [], remoteLog := [] }

/-- Witness for C4 at the concrete state `pendingDeleteState`. -/
theorem C4_witness :
    pendingDeleteState.fileToDelete = some 42 ∧
    ((handleConfirmDelete pendingDeleteState).fileCache = pendingDeleteState.fileCache ∧
     (handleConfirmDelete pendingDeleteState).remoteLog = pendingDeleteState.remoteLog ∧
     (handleConfirmDelete pendingDeleteState).toasts = pendingDeleteState.toasts ++
       [Toast.error "Delete functionality not yet implemented in backend" none] ∧
     (handleConfirmDelete pendingDeleteState).fileToDelete = none ∧
     (handleCancelDelete pendingDeleteState).fileCache = pendingDeleteState.fileCache ∧
     (handleCancelDelete pendingDeleteState).remoteLog = pendingDeleteState.remoteLog ∧
     (handleCancelDelete pendingDeleteState).fileToDelete = none) :=
  ⟨rfl, C4_confirm_delete_is_pure_unsupported pendingDeleteState 42 rfl⟩

/-- Claim C5 (confirmed): when the remote `getFileContent` result is
absent, the retrieval settles with the `File not found` error, exactly
one remote call is issued (no retry), no materialization (save action)
occurs, and the failure toast surfaces the cause as its description. -/
theorem C5_absent_content_fails_not_found
    (remote : Nat → Option (String × List Nat)) (fileId : Nat)
    (fileName : String) (h : remote fileId = none) :
    (getFileContentMutationFn true remote fileId).2 =
      Except.error "File not found" ∧
    handleDownload true remote fileId fileName =
      { calls := [RemoteCall.getFileContent fileId]
        savedFile := none
        toasts := [Toast.error "Failed to download file" (some "File not found")] } := by
  constructor
  · simp [getFileContentMutationFn, h]
  · simp [handleDownload, getFileContentMutationFn, h]

/-- Witness for C5: an empty remote store at id 42. -/
theorem C5_witness :
    (fun _ : Nat => (none : Option (String × List Nat))) 42 = none ∧
    ((getFileContentMutationFn true (fun _ => none) 42).2 =
        Except.error "File not found" ∧
     handleDownload true (fun _ => none) 42 "cached.txt" =
       { calls := [RemoteCall.getFileContent 42]
         savedFile := none
         toasts := [Toast.error "Failed to download file" (some "File not found")] }) :=
  ⟨rfl, C5_absent_content_fails_not_found (fun _ => none) 42 "cached.txt" rfl⟩

/-- Claim C6 (confirmed): a successful retrieval materializes the bytes
under the remote-reported name from the `getFileContent` result, not the
cache's name for that id: the download result is entirely independent of
the `fileName` argument, and the success toast reports the remote name. -/
theorem C6_download_uses_remote_name
    (remote : Nat → Option (String × List Nat)) (fileId : Nat)
    (rname : String) (bytes : List Nat) (cacheName : String)
    (h : remote fileId = some (rname, bytes)) :
    (handleDownload true remote fileId cacheName).savedFile = some (rname, bytes) ∧
    (handleDownload true remote fileId cacheName).toasts =
      [Toast.success "Download started!" (some ("Downloading " ++ rname))] ∧
    (∀ otherName, handleDownload true remote fileId otherName =
        handleDownload true remote fileId cacheName) := by
  refine ⟨?_, ?_, fun otherName => ?_⟩ <;>
    simp [handleDownload, getFileContentMutationFn, h]

/-- Witness for C6: the remote reports a different name than the cache
passes in. -/
theorem C6_witness :
    (fun _ : Nat => some ("remote-name.bin", [1, 2, 3])) 7 =
      some ("remote-name.bin", [1, 2, 3]) ∧
    ((handleDownload true (fun _ => some ("remote-name.bin", [1, 2, 3])) 7
        "cached-name.txt").savedFile = some ("remote-name.bin", [1, 2, 3]) ∧
     (handleDownload true (fun _ => some ("remote-name.bin", [1, 2, 3])) 7
        "cached-name.txt").toasts =
       [Toast.success "Download started!" (some ("Downloading " ++ "remote-name.bin"))] ∧
     (∀ otherName, handleDownload true (fun _ => some ("remote-name.bin", [1, 2, 3])) 7
          otherName =
        handleDownload true (fun _ => some ("remote-name.bin", [1, 2, 3])) 7
          "cached-name.txt")) :=
  ⟨rfl, C6_download_uses_remote_name (fun _ => some ("remote-name.bin", [1, 2, 3])) 7
    "remote-name.bin" [1, 2, 3] "cached-name.txt" rfl⟩

/-- Counterexample for C3: with the binding available, a submission with
the empty name is not rejected — the remote `addFile` call is issued
carrying the empty name and the mutation settles successfully, so the
claimed non-empty-name precondition is not enforced anywhere. -/
theorem C3_counterexample :
    mutationFnAddFile true (RemoteOutcome.accepted ⟨1, "", 0⟩) "" 0 =
      ([UploadEvent.remoteAddFile "" 0, UploadEvent.remoteAccepted ⟨1, "", 0⟩],
       Except.ok ⟨1, "", 0⟩) := rfl

/-- Claim C3 amended (proved): when the Remote Client Binding is
unavailable the mutation fails with the `Actor not initialized`
(BindingUnavailable) error without issuing any remote call; when it is
available the remote call is issued exactly once with the given name and
size unchanged — there is no local validation of either (a non-negative
size is guaranteed only by the input type). -/
theorem C3_amended_binding_gate (outcome : RemoteOutcome)
    (name : String) (size : Nat) :
    mutationFnAddFile false outcome name size =
      ([], Except.error "Actor not initialized") ∧
    (mutationFnAddFile true outcome name size).1.countP isRemoteCallEvent = 1 ∧
    UploadEvent.remoteAddFile name size ∈ (mutationFnAddFile true outcome name size).1 := by
  refine ⟨rfl, ?_, ?_⟩ <;>
    cases outcome <;>
      simp [mutationFnAddFile, isRemoteCallEvent, List.countP_cons]

/-- Counterexample for C1: for the failed upload of `x.bin` (10 bytes)
rejected with cause `quota exceeded`, the emitted notifications are
exactly the "Selected:" toast and the fixed `Failed to upload file`
toast with no description — no emitted notification carries the
underlying cause (it only reaches the developer console). -/
theorem C1_counterexample :
    toastsOf (uploadSessionTrace true (RemoteOutcome.rejected "quota exceeded")
        "x.bin" 10) =
      [Toast.success "Selected: x.bin" (some "Size: 0.01 KB"),
       Toast.error "Failed to upload file" none] ∧
    (toastsOf (uploadSessionTrace true (RemoteOutcome.rejected "quota exceeded")
        "x.bin" 10)).all
      (fun t => !(toastCarries "quota exceeded" t)) = true :=
  ⟨rfl, rfl⟩

/-- Claim C1 amended (proved): on a rejected remote `addFile` call the
File Cache is untouched (no invalidation event occurs and the cache
state is unchanged by the whole session), the transient upload state is
cleared immediately with no settle delay, and a fixed failure
notification (`Failed to upload file`, without the cause) is emitted
while the underlying cause is logged to the console. -/
theorem C1_amended_failure_path (name : String) (size : Nat) (cause : String)
    (remoteFiles : List FileMetadata) (s : AppState) :
    (uploadSessionTrace true (RemoteOutcome.rejected cause) name size).countP
      isInvalidate = 0 ∧
    (runTrace remoteFiles s (uploadSessionTrace true (RemoteOutcome.rejected cause)
        name size)).fileCache = s.fileCache ∧
    (uploadSessionTrace true (RemoteOutcome.rejected cause) name size).countP
      isSettleDelay = 0 ∧
    (uploadSessionTrace true (RemoteOutcome.rejected cause) name size).drop 5 =
      [UploadEvent.toastEvent (Toast.error "Failed to upload file" none),
       UploadEvent.consoleError cause,
       UploadEvent.setIsUploading false, UploadEvent.setProgress 0] ∧
    (runTrace remoteFiles s (uploadSessionTrace true (RemoteOutcome.rejected cause)
        name size)).isUploading = false ∧
    (runTrace remoteFiles s (uploadSessionTrace true (RemoteOutcome.rejected cause)
        name size)).uploadProgress = 0 ∧
    (runTrace remoteFiles s (uploadSessionTrace true (RemoteOutcome.rejected cause)
        name size)).consoleLog = s.consoleLog ++ [cause] :=
  ⟨rfl, rfl, rfl, rfl, rfl, rfl, rfl⟩

/-- Claim C8 (confirmed): in a successful upload session the events are
strictly ordered: the remote settlement (index 4) precedes the cache
invalidation (index 5), which precedes setting progress to 100 (index 6)
and the success notification (index 7), followed by the 500 ms settle
delay (index 8) and only then the transient-state clear (index 9); each
of these events occurs exactly once, so in particular cache invalidation
never precedes remote acceptance and reach-100% strictly precedes the
clear step. -/
theorem C8_success_ordering (name : String) (size : Nat) (r : FileMetadata) :
    (uploadSessionTrace true (RemoteOutcome.accepted r) name size).findIdx?
      isRemoteAccepted = some 4 ∧
    (uploadSessionTrace true (RemoteOutcome.accepted r) name size).findIdx?
      isInvalidate = some 5 ∧
    (uploadSessionTrace true (RemoteOutcome.accepted r) name size).findIdx?
      isSetProgress100 = some 6 ∧
    (uploadSessionTrace true (RemoteOutcome.accepted r) name size).findIdx?
      isSuccessNotification = some 7 ∧
    (uploadSessionTrace true (RemoteOutcome.accepted r) name size).findIdx?
      isSettleDelay = some 8 ∧
    (uploadSessionTrace true (RemoteOutcome.accepted r) name size).findIdx?
      isClearUploading = some 9 ∧
    (uploadSessionTrace true (RemoteOutcome.accepted r) name size).countP
      isRemoteAccepted = 1 ∧
    (uploadSessionTrace true (RemoteOutcome.accepted r) name size).countP
      isInvalidate = 1 ∧
    (uploadSessionTrace true (RemoteOutcome.accepted r) name size).countP
      isSetProgress100 = 1 ∧
    (uploadSessionTrace true (RemoteOutcome.accepted r) name size).countP
      isSettleDelay = 1 ∧
    (uploadSessionTrace true (RemoteOutcome.accepted r) name size).countP
      isClearUploading = 1 ∧
    (uploadSessionTrace true (RemoteOutcome.accepted r) name size)[8]? =
      some (UploadEvent.settleDelay 500) :=
  ⟨rfl, rfl, rfl, rfl, rfl, rfl, rfl, rfl, rfl, rfl, rfl, rfl⟩

/-- Claim C2 (confirmed): the animation parameters are a 30 ms tick over
a 1.5 s ramp with increment `95 / (1500 / 30)`; the rendered progress
after any number of ticks from the start of a session stays at or below
the 95 ceiling (so never 100 on its own); and a `setProgress 100` event
occurs in an upload session's trace only on the success path — failed or
unissued uploads produce none, a successful one exactly one, and that
one strictly after the remote acceptance. -/
theorem C2_progress_100_only_on_success :
    duration = 1500 ∧ intervalTime = 30 ∧ increment = 95 / (1500 / 30) ∧
    (∀ n : Nat, (tick^[n] startEngineState).uploadProgress ≤ 95) ∧
    (∀ (name : String) (size : Nat) (cause : String),
      (uploadSessionTrace true (RemoteOutcome.rejected cause) name size).countP
        isSetProgress100 = 0) ∧
    (∀ (outcome : RemoteOutcome) (name : String) (size : Nat),
      (uploadSessionTrace false outcome name size).countP isSetProgress100 = 0) ∧
    (∀ (name : String) (size : Nat) (r : FileMetadata),
      (uploadSessionTrace true (RemoteOutcome.accepted r) name size).countP
          isSetProgress100 = 1 ∧
      (uploadSessionTrace true (RemoteOutcome.accepted r) name size).findIdx?
          isSetProgress100 = some 6 ∧
      (uploadSessionTrace true (RemoteOutcome.accepted r) name size).findIdx?
          isRemoteAccepted = some 4) := by
  refine ⟨rfl, rfl, rfl, ?_, ?_, ?_, ?_⟩
  · intro n
    refine iterate_tick_uploadProgress_le n startEngineState ?_
    show (0 : ℚ) ≤ 95
    norm_num
  · intro name size cause; rfl
  · intro outcome name size; cases outcome <;> rfl
  · intro name size r; exact ⟨rfl, rfl, rfl⟩

/-- An app state with nothing pending and empty logs. -/
def emptyAppState : AppState :=
  { copiedIndex := none, fileToDelete := none, uploadProgress := 0,
    isUploading := false, fileCache := [], toasts := [],
    consoleLog := [], remoteLog := [] }

/-- Claim C7 (confirmed): from the start of an upload session (the very
first event sets the uploading flag) through every point up to the
transient-state clear, the uploading flag is set and therefore the
upload button — whose `disabled` attribute is that flag — is disabled;
and an invocation issues at most one remote `addFile` call, so a second
submission is blocked at the entry control rather than queued. -/
theorem C7_one_upload_in_flight (avail : Bool) (outcome : RemoteOutcome)
    (name : String) (size : Nat) (remoteFiles : List FileMetadata)
    (s : AppState) (k : Nat) (h1 : 1 ≤ k)
    (h2 : k ≤ (uploadSessionTrace avail outcome name size).findIdx
      isClearUploading) :
    uploadButtonDisabled
      (runTrace remoteFiles s
        ((uploadSessionTrace avail outcome name size).take k)) = true ∧
    (uploadSessionTrace avail outcome name size).countP isRemoteCallEvent ≤ 1 := by
  cases avail
  · cases outcome
    all_goals
      refine ⟨?_, Nat.zero_le 1⟩
      have h2' : k ≤ 5 := h2
      interval_cases k <;> rfl
  · cases outcome
    · refine ⟨?_, Nat.le_refl 1⟩
      have h2' : k ≤ 9 := h2
      interval_cases k <;> rfl
    · refine ⟨?_, Nat.le_refl 1⟩
      have h2' : k ≤ 7 := h2
      interval_cases k <;> rfl

/-- Witness for C7: three events into a failing upload of `x.bin`, the
button is disabled. -/
theorem C7_witness :
    1 ≤ 3 ∧
    3 ≤ (uploadSessionTrace true (RemoteOutcome.rejected "boom") "x.bin" 10).findIdx
      isClearUploading ∧
    (uploadButtonDisabled
       (runTrace [] emptyAppState
         ((uploadSessionTrace true (RemoteOutcome.rejected "boom") "x.bin" 10).take 3)) =
         true ∧
     (uploadSessionTrace true (RemoteOutcome.rejected "boom") "x.bin" 10).countP
       isRemoteCallEvent ≤ 1) :=
  ⟨by decide, by decide,
   C7_one_upload_in_flight true (RemoteOutcome.rejected "boom") "x.bin" 10 []
     emptyAppState 3 (by decide) (by decide)⟩

/-- Claim C9 (confirmed): whenever the owning upload session ends — the
effect's dependency flags no longer satisfy `isUploading && isPending`
(success or failure settlement, or the reset), or the component is torn
down — the effect's cleanup has cleared the interval, and from then on
no tick fires: any number of further ticks leaves the whole engine state
(progress included) unchanged. -/
theorem C9_timer_released_on_session_end (s : EngineState)
    (uploading pending : Bool) (h : (uploading && pending) = false) :
    ((setSessionFlags s uploading pending).timerActive = false ∧
     ∀ n : Nat, tick^[n] (setSessionFlags s uploading pending) =
       setSessionFlags s uploading pending) ∧
    ((unmountComponent s).timerActive = false ∧
     ∀ n : Nat, tick^[n] (unmountComponent s) = unmountComponent s) := by
  have hflag : (setSessionFlags s uploading pending).timerActive = false := by
    unfold setSessionFlags runEffect
    cases uploading <;> cases pending <;> simp_all
  have hun : (unmountComponent s).timerActive = false := rfl
  exact ⟨⟨hflag, fun n => iterate_tick_of_not_active n _ hflag⟩,
         ⟨hun, fun n => iterate_tick_of_not_active n _ hun⟩⟩

/-- Witness for C9: the mutation settles (`isPending` drops) while the
session had a live interval. -/
theorem C9_witness :
    ((true && false) = false) ∧
    (((setSessionFlags startEngineState true false).timerActive = false ∧
      ∀ n : Nat, tick^[n] (setSessionFlags startEngineState true false) =
        setSessionFlags startEngineState true false) ∧
     ((unmountComponent startEngineState).timerActive = false ∧
      ∀ n : Nat, tick^[n] (unmountComponent startEngineState) =
        unmountComponent startEngineState)) :=
  ⟨rfl, C9_timer_released_on_session_end startEngineState true false rfl⟩

end FileStem
